import Mathlib

/-!
Verification of the SyncStream watch-together app (React + localStorage MVP).

The embedding covers:
* the `RoomState` record of `src/types.ts`;
* the room service (`getRoomState`, `createRoom`, `joinRoom`,
  `updateRoomState`) backed by `localStorage` / `sessionStorage`, modelled as
  explicit key-value maps threaded through the functions;
* the host heartbeat and listener drift-correction tick of the two `Room`
  component variants;
* the player-teardown cleanup of the two `useYouTube` hook variants.

`localStorage` keys in the source are the constant text "syncstream_room_"
followed by the room id; since that key family is disjoint from everything
else and the constant part is injective, the store is modelled as a map keyed
by room id directly.  `sessionStorage` uses the two key shapes "role_" ++
roomId and "userId", modelled by the inductive `SessKey` (the two shapes can
never collide because one starts with the letter r and the other with u).
Wall-clock instants (`Date.now()`, milliseconds) are `Int`; playback seconds
are `Rat`; the YouTube player state codes stay the raw integers used by the
source (1 = playing, 2 = paused, 3 = buffering).
-/

/-- `RoomState` from `src/types.ts`. -/
structure RoomState where
  roomId : String
  hostId : String
  videoId : String
  isPlaying : Bool
  timestamp : Rat
  lastUpdated : Int
deriving DecidableEq, Repr

/-- The `localStorage` contents relevant to the app: room id ↦ stored state. -/
abbrev Store := String → Option RoomState

/-- `sessionStorage` keys used by the room service: `role_<roomId>` and `userId`. -/
inductive SessKey where
  | role (roomId : String)
  | userId
deriving DecidableEq

/-- The `sessionStorage` contents: key ↦ stored string. -/
abbrev Session := SessKey → Option String

/-- `sessionStorage.setItem`. -/
def sessionSet (s : Session) (k : SessKey) (v : String) : Session :=
  fun k' => if k' = k then some v else s k'

/-- `localStorage.setItem(STORAGE_PREFIX + roomId, JSON.stringify(s))`. -/
def putRoom (store : Store) (roomId : String) (s : RoomState) : Store :=
  fun k => if k = roomId then some s else store k

/-- `getRoomState` of the room service: read the stored record, `null` when absent. -/
def getRoomState (store : Store) (roomId : String) : Option RoomState :=
  store roomId

/-- A `Partial<RoomState>` argument of `updateRoomState`: each field is either
present or absent. -/
structure RoomStateUpdate where
  roomId : Option String
  hostId : Option String
  videoId : Option String
  isPlaying : Option Bool
  timestamp : Option Rat
  lastUpdated : Option Int
deriving DecidableEq, Repr

/-- The spread merge of `updateRoomState`: fields present in `updates` replace
the current ones, and the trailing field assignment forces `lastUpdated` to the
current wall clock, so a `lastUpdated` inside `updates` is dead. -/
def mergeState (current : RoomState) (updates : RoomStateUpdate) (now : Int) : RoomState :=
  RoomState.mk
    (updates.roomId.getD current.roomId)
    (updates.hostId.getD current.hostId)
    (updates.videoId.getD current.videoId)
    (updates.isPlaying.getD current.isPlaying)
    (updates.timestamp.getD current.timestamp)
    now

/-- `updateRoomState` of the room service: read the current record, return
doing nothing when the room is absent, otherwise write the merged record. -/
def updateRoomState (store : Store) (roomId : String) (updates : RoomStateUpdate)
    (now : Int) : Store :=
  match getRoomState store roomId with
  | none => store
  | some current => putRoom store roomId (mergeState current updates now)

/-- Result record of `createRoom`: the stores after the call and the returned
state.  The fresh ids produced by `generateId()` (backed by `Math.random()`)
enter as the `roomId` and `hostId` arguments. -/
structure CreateResult where
  store : Store
  session : Session
  state : RoomState

/-- `createRoom` of the room service. -/
def createRoom (store : Store) (session : Session) (videoId roomId hostId : String)
    (now : Int) : CreateResult :=
  let initialState := RoomState.mk roomId hostId videoId false 0 now
  CreateResult.mk
    (putRoom store roomId initialState)
    (sessionSet (sessionSet session (SessKey.role roomId) "host") SessKey.userId hostId)
    initialState

/-- The value `joinRoom` returns to its caller. -/
structure JoinResult where
  success : Bool
  state : Option RoomState
  isHost : Bool
deriving DecidableEq, Repr

/-- `joinRoom` of the room service: the pair is the returned record and the
session storage after the call (a listener with no user id gets the fresh one
supplied by `generateId()`, entering as the `freshId` argument).  A missing
room returns before any session read or write. -/
def joinRoom (store : Store) (session : Session) (roomId freshId : String) :
    JoinResult × Session :=
  match getRoomState store roomId with
  | none => (JoinResult.mk false none false, session)
  | some st =>
      let isHost := decide (session (SessKey.role roomId) = some "host")
      let session' :=
        match session SessKey.userId with
        | some _ => session
        | none => sessionSet session SessKey.userId freshId
      (JoinResult.mk true (some st) isHost, session')

/-- Outcome of the `Room` init effect of the first variant: the error banner,
whether `subscribeToRoom` was reached, and the component state written. -/
structure InitResult where
  error : Option String
  subscribed : Bool
  roomState : Option RoomState
  isHost : Bool
deriving DecidableEq, Repr

/-- The init effect of the first `Room` variant: on a failed join set the
error and return before subscribing; otherwise store the state and role and
subscribe. -/
def initRoomEffect (jr : JoinResult) : InitResult :=
  if jr.success = false ∨ jr.state.isNone then
    InitResult.mk (some "Room not found. It may have expired or never existed.") false none false
  else
    InitResult.mk none true jr.state jr.isHost

/-- Outcome of the `Room` init effect of the second variant, which also sets
`userInteracted` when the session is the host. -/
structure InitResultV2 where
  error : Option String
  subscribed : Bool
  roomState : Option RoomState
  isHost : Bool
  userInteracted : Bool
deriving DecidableEq, Repr

/-- The init effect of the second `Room` variant. -/
def initRoomEffectV2 (jr : JoinResult) : InitResultV2 :=
  if jr.success = false ∨ jr.state.isNone then
    InitResultV2.mk (some "Room not found or expired.") false none false false
  else
    InitResultV2.mk none true jr.state jr.isHost jr.isHost

/-- A corrective command issued against the player adapter. -/
inductive PlayerCmd where
  | play
  | pause
  | seekTo (t : Rat)
deriving DecidableEq, Repr

/-- The target-position extrapolation computed at the top of `checkSync`:
the checkpoint timestamp, advanced by the wall-clock milliseconds elapsed
since `lastUpdated`, divided by 1000, when the room says playing. -/
def targetTime (rs : RoomState) (now : Int) : Rat :=
  if rs.isPlaying then rs.timestamp + ((now - rs.lastUpdated : Int) : Rat) / 1000
  else rs.timestamp

/-- The body of `checkSync`, shared verbatim by the two `Room` variants up to
the drift threshold: read player state and position, seek when the absolute
drift exceeds the threshold, then reconcile play/pause (play unless the local
player is already playing (1) or buffering (3); pause only when locally
playing). -/
def checkSyncWith (maxDrift : Rat) (rs : RoomState) (playerState : Int)
    (currentTime : Rat) (now : Int) : List PlayerCmd :=
  let tt := targetTime rs now
  let drift := |currentTime - tt|
  (if drift > maxDrift then [PlayerCmd.seekTo tt] else [])
    ++ (if rs.isPlaying ∧ playerState ≠ 1 ∧ playerState ≠ 3 then [PlayerCmd.play]
        else if ¬rs.isPlaying ∧ playerState = 1 then [PlayerCmd.pause]
        else [])

/-- `MAX_DRIFT = 0.5` of the first `Room` variant. -/
def MAX_DRIFT : Rat := 1 / 2

/-- `MAX_DRIFT = 0.8` of the second `Room` variant. -/
def MAX_DRIFT_V2 : Rat := 8 / 10

/-- `checkSync` of the first `Room` variant. -/
def checkSync : RoomState → Int → Rat → Int → List PlayerCmd :=
  checkSyncWith MAX_DRIFT

/-- `checkSync` of the second `Room` variant. -/
def checkSyncV2 : RoomState → Int → Rat → Int → List PlayerCmd :=
  checkSyncWith MAX_DRIFT_V2

/-- One firing of the listener sync interval of the first `Room` variant,
including the effect guard: a host session, a missing cached room state, a
not-ready player or a missing interaction gesture all mean the interval was
never installed, so the tick issues nothing. -/
def listenerTick (isHost : Bool) (roomState : Option RoomState)
    (isReady userInteracted : Bool) (playerState : Int) (currentTime : Rat)
    (now : Int) : List PlayerCmd :=
  match roomState with
  | none => []
  | some rs =>
      if isHost = true ∨ isReady = false ∨ userInteracted = false then []
      else checkSync rs playerState currentTime now

/-- One firing of the listener sync interval of the second `Room` variant
(same guard, looser drift threshold). -/
def listenerTickV2 (isHost : Bool) (roomState : Option RoomState)
    (isReady userInteracted : Bool) (playerState : Int) (currentTime : Rat)
    (now : Int) : List PlayerCmd :=
  match roomState with
  | none => []
  | some rs =>
      if isHost = true ∨ isReady = false ∨ userInteracted = false then []
      else checkSyncV2 rs playerState currentTime now

/-- The `setInterval` period of the host heartbeat in the first `Room`
variant, in milliseconds. -/
def HEARTBEAT_INTERVAL_MS : Nat := 2000

/-- The `setInterval` period of `updateUIAndHostSync` in the second `Room`
variant, in milliseconds. -/
def UI_SYNC_INTERVAL_MS : Nat := 500

/-- One firing of the host heartbeat interval of the first `Room` variant:
read the current time, and only when the player state is playing (1) merge a
timestamp-only update into the room state. -/
def hostHeartbeatTick (store : Store) (roomId : String) (playerState : Int)
    (currentTime : Rat) (now : Int) : Store :=
  if playerState = 1 then
    updateRoomState store roomId
      (RoomStateUpdate.mk none none none none (some currentTime) none) now
  else store

/-- One firing of `updateUIAndHostSync` of the second `Room` variant: update
the local progress display unless the scrubber is being dragged; the host
branch guarded by playing state contains only comments in the source and
performs no store write.  Result: the store after the tick and the new local
display time. -/
def updateUIAndHostSync (store : Store) (isHost : Bool) (roomId : String)
    (playerState : Int) (currentTime : Rat) (isDragging : Bool)
    (localCurrentTime : Rat) : Store × Rat :=
  let localCurrentTime' := if isDragging then localCurrentTime else currentTime
  if isHost = true ∧ roomId ≠ "" ∧ playerState = 1 then
    (store, localCurrentTime')
  else
    (store, localCurrentTime')

/-- Behaviour of the underlying player's `destroy()` call during teardown. -/
inductive DestroyOutcome where
  | succeeds
  | fails (msg : String)
deriving DecidableEq, Repr

/-- Running `destroy()` on a player instance. -/
def destroyPlayer : DestroyOutcome → Except String Unit
  | DestroyOutcome.succeeds => Except.ok ()
  | DestroyOutcome.fails msg => Except.error msg

/-- Effect cleanup of `src/hooks/useYouTube.tsx`: when a player instance
exists, `destroy()` runs inside try/catch with the catch body ignoring the
error, then the ref and ready flag are reset. -/
def cleanupHooks (playerRef : Option DestroyOutcome) : Except String Unit :=
  match playerRef with
  | none => Except.ok ()
  | some p =>
      match destroyPlayer p with
      | Except.ok _ => Except.ok ()
      | Except.error _ => Except.ok ()

/-- Effect cleanup of the other `useYouTube` variant: `destroy()` runs with no
try/catch, so a failure propagates to the caller. -/
def cleanupV0 (playerRef : Option DestroyOutcome) : Except String Unit :=
  match playerRef with
  | none => Except.ok ()
  | some p => destroyPlayer p

/-! ## Theorems -/

/-- Seek targets contained in a command list. -/
def seekTargets (cmds : List PlayerCmd) : List Rat :=
  cmds.filterMap fun c =>
    match c with
    | PlayerCmd.seekTo t => some t
    | _ => none

/-- The play/pause commands of a command list, seeks dropped. -/
def playPauseOf (cmds : List PlayerCmd) : List PlayerCmd :=
  cmds.filter fun c =>
    match c with
    | PlayerCmd.seekTo _ => false
    | _ => true

theorem seekTargets_checkSyncWith (md : Rat) (rs : RoomState) (ps : Int)
    (ct : Rat) (now : Int) :
    seekTargets (checkSyncWith md rs ps ct now) =
      if |ct - targetTime rs now| > md then [targetTime rs now] else [] := by
  unfold checkSyncWith seekTargets
  rw [List.filterMap_append]
  by_cases hd : |ct - targetTime rs now| > md <;>
    cases hb : rs.isPlaying <;> by_cases h1 : ps = 1 <;> by_cases h3 : ps = 3 <;>
      simp [hd, hb, h1, h3]

theorem playPauseOf_checkSyncWith (md : Rat) (rs : RoomState) (ps : Int)
    (ct : Rat) (now : Int) :
    playPauseOf (checkSyncWith md rs ps ct now) =
      (if rs.isPlaying = true ∧ ps ≠ 1 ∧ ps ≠ 3 then [PlayerCmd.play] else [])
        ++ (if rs.isPlaying = false ∧ ps = 1 then [PlayerCmd.pause] else []) := by
  unfold checkSyncWith playPauseOf
  rw [List.filter_append]
  cases hb : rs.isPlaying <;> by_cases h1 : ps = 1 <;> by_cases h3 : ps = 3 <;>
    simp [hb, h1, h3]

/-- Claim C1: on a listener reconciliation tick, the target position is the
checkpoint timestamp when the cached room state is paused and the timestamp
plus elapsed wall-clock seconds when playing, and a seek — always to the
target — is issued exactly when the absolute drift exceeds the variant's
drift threshold, so drift within tolerance issues no seek. -/
theorem checkSync_seek_iff_drift :
    ∀ (rs : RoomState) (ps : Int) (ct : Rat) (now : Int),
    targetTime rs now =
        (if rs.isPlaying then rs.timestamp + ((now : Rat) - (rs.lastUpdated : Rat)) / 1000
         else rs.timestamp)
      ∧ seekTargets (checkSync rs ps ct now) =
          (if |ct - targetTime rs now| > MAX_DRIFT then [targetTime rs now] else [])
      ∧ seekTargets (checkSyncV2 rs ps ct now) =
          (if |ct - targetTime rs now| > MAX_DRIFT_V2 then [targetTime rs now] else []) := by
  intro rs ps ct now
  refine ⟨?_, ?_, ?_⟩
  · unfold targetTime
    split <;> [push_cast; skip] <;> rfl
  · exact seekTargets_checkSyncWith MAX_DRIFT rs ps ct now
  · exact seekTargets_checkSyncWith MAX_DRIFT_V2 rs ps ct now

/-- Claim C2: on a listener reconciliation tick, play/pause reconciliation
depends only on the cached playing intent and the local player state (never on
positions or drift): play is issued exactly when the room says playing and the
local player is neither playing nor buffering, pause exactly when the room
says paused and the local player is playing, and a buffering local player
never receives play. -/
theorem checkSync_play_pause_reconciliation :
    ∀ (rs : RoomState) (ps : Int) (ct : Rat) (now : Int),
    playPauseOf (checkSync rs ps ct now) =
        (if rs.isPlaying = true ∧ ps ≠ 1 ∧ ps ≠ 3 then [PlayerCmd.play] else [])
          ++ (if rs.isPlaying = false ∧ ps = 1 then [PlayerCmd.pause] else [])
      ∧ playPauseOf (checkSyncV2 rs ps ct now) =
          (if rs.isPlaying = true ∧ ps ≠ 1 ∧ ps ≠ 3 then [PlayerCmd.play] else [])
            ++ (if rs.isPlaying = false ∧ ps = 1 then [PlayerCmd.pause] else [])
      ∧ PlayerCmd.play ∉ checkSync rs 3 ct now
      ∧ PlayerCmd.play ∉ checkSyncV2 rs 3 ct now := by
  intro rs ps ct now
  refine ⟨playPauseOf_checkSyncWith MAX_DRIFT rs ps ct now,
    playPauseOf_checkSyncWith MAX_DRIFT_V2 rs ps ct now, ?_, ?_⟩ <;>
  · simp only [checkSync, checkSyncV2, checkSyncWith, List.mem_append, List.mem_singleton]
    intro h
    rcases h with h | h
    · split at h <;> simp_all
    · split at h
      · simp_all
      · split at h <;> simp_all

/-- Sanity scenario from the design notes: host checkpoint at 10.0 seconds,
playing; a listener ticking 3000 ms later at local position 10.2 computes
target 13.0 and drift 2.8, so it seeks to 13.0. -/
theorem scenario_drift_seek :
    checkSync (RoomState.mk "r" "h" "v" true 10 0) 1 (51 / 5) 3000 =
      [PlayerCmd.seekTo 13] := by
  norm_num [checkSync, checkSyncWith, targetTime, MAX_DRIFT, abs_of_nonneg, abs_of_nonpos]

/-- Sanity scenario from the design notes: host paused at 55.4; a listener at
local position 55.4 and locally playing issues no seek but a pause. -/
theorem scenario_pause_no_seek :
    checkSync (RoomState.mk "r" "h" "v" false (277 / 5) 0) 1 (277 / 5) 9000 =
      [PlayerCmd.pause] := by
  norm_num [checkSync, checkSyncWith, targetTime, MAX_DRIFT]

/-- Claim C3 (amended): in the first `Room` variant the host heartbeat fires
every 2000 ms and, while the local player is playing, merges a timestamp-only
update (current time, `isPlaying` and all identity fields untouched,
`lastUpdated` refreshed); when the player is not playing the tick performs no
write.  In the second variant the periodic host-sync tick fires every 500 ms
and never writes to the store at all. -/
theorem host_heartbeat_amended :
    ∀ (store : Store) (rid : String) (ps : Int) (ct : Rat) (now : Int)
      (isHost isDragging : Bool) (lt : Rat),
    HEARTBEAT_INTERVAL_MS = 2000
      ∧ (ps = 1 →
          getRoomState (hostHeartbeatTick store rid ps ct now) rid =
            (getRoomState store rid).map fun c =>
              RoomState.mk c.roomId c.hostId c.videoId c.isPlaying ct now)
      ∧ (ps ≠ 1 → hostHeartbeatTick store rid ps ct now = store)
      ∧ UI_SYNC_INTERVAL_MS = 500
      ∧ (updateUIAndHostSync store isHost rid ps ct isDragging lt).1 = store := by
  intro store rid ps ct now isHost isDragging lt
  refine ⟨rfl, ?_, ?_, rfl, ?_⟩
  · intro h1
    unfold hostHeartbeatTick updateRoomState
    rw [if_pos h1]
    cases hcur : getRoomState store rid with
    | none => rw [hcur]; simp [hcur]
    | some c => simp [getRoomState, putRoom, mergeState]
  · intro h1
    unfold hostHeartbeatTick
    rw [if_neg h1]
  · unfold updateUIAndHostSync
    split <;> split <;> rfl

/-- Stored state used in the C3 counterexample. -/
def stC3 : RoomState := RoomState.mk "r1" "h1" "v1" true 0 100

/-- Store holding one room, used in the C3 counterexample. -/
def storeC3 : Store := fun k => if k = "r1" then some stC3 else none

/-- Claim C3 counterexample: in the second `Room` variant the periodic
host-sync tick, fired while the host player is playing (state 1) at current
time 42, leaves the store unchanged — the stored timestamp stays 0 instead of
becoming the player's current time 42 as the claim requires. -/
theorem hostSyncV2_no_write_cex :
    (updateUIAndHostSync storeC3 true "r1" 1 42 false 0).1 = storeC3
      ∧ getRoomState (updateUIAndHostSync storeC3 true "r1" 1 42 false 0).1 "r1" = some stC3
      ∧ stC3.timestamp ≠ (42 : Rat) := by
  refine ⟨rfl, rfl, by norm_num [stC3]⟩

/-- Claim C4: for an existing room, `updateRoomState` stores exactly the merge
of the current record with the partial update: fields present in the update
replace the stored ones, absent fields keep their stored values, `lastUpdated`
becomes the write's wall-clock time, and a subsequent `getRoomState` returns
the merged record. -/
theorem updateRoomState_merge_spec (store : Store) (rid : String)
    (u : RoomStateUpdate) (now : Int) (current : RoomState)
    (h : getRoomState store rid = some current) :
    getRoomState (updateRoomState store rid u now) rid = some (mergeState current u now)
      ∧ (mergeState current u now).lastUpdated = now
      ∧ (u.roomId = none → (mergeState current u now).roomId = current.roomId)
      ∧ (∀ x, u.roomId = some x → (mergeState current u now).roomId = x)
      ∧ (u.hostId = none → (mergeState current u now).hostId = current.hostId)
      ∧ (∀ x, u.hostId = some x → (mergeState current u now).hostId = x)
      ∧ (u.videoId = none → (mergeState current u now).videoId = current.videoId)
      ∧ (∀ x, u.videoId = some x → (mergeState current u now).videoId = x)
      ∧ (u.isPlaying = none → (mergeState current u now).isPlaying = current.isPlaying)
      ∧ (∀ x, u.isPlaying = some x → (mergeState current u now).isPlaying = x)
      ∧ (u.timestamp = none → (mergeState current u now).timestamp = current.timestamp)
      ∧ (∀ x, u.timestamp = some x → (mergeState current u now).timestamp = x) := by
  refine ⟨?_, rfl, ?_, ?_, ?_, ?_, ?_, ?_, ?_, ?_, ?_, ?_⟩
  · unfold updateRoomState
    rw [h]
    simp [getRoomState, putRoom]
  all_goals
    first
      | (intro hx; simp [mergeState, hx])
      | (intro x hx; simp [mergeState, hx])

/-- Stored state used in the C4 witness. -/
def stC4 : RoomState := RoomState.mk "r1" "h1" "abc123" false 7 100

/-- Store holding one room, used in the C4 witness. -/
def storeC4 : Store := fun k => if k = "r1" then some stC4 else none

/-- The partial update of the claim's example: playing true, timestamp 42. -/
def updC4 : RoomStateUpdate :=
  RoomStateUpdate.mk none none none (some true) (some 42) none

/-- Witness for `updateRoomState_merge_spec` at the claim's example: merging
playing true and timestamp 42 at wall clock 1000 into a stored paused record
reads back with those two fields replaced, identity fields kept and
`lastUpdated` advanced to 1000. -/
theorem updateRoomState_merge_spec_witness :
    getRoomState (updateRoomState storeC4 "r1" updC4 1000) "r1" =
      some (RoomState.mk "r1" "h1" "abc123" true 42 1000) := by
  have hm := (updateRoomState_merge_spec storeC4 "r1" updC4 1000 stC4 rfl).1
  simpa [mergeState, stC4, updC4] using hm

/-- Claim C5: the room-state merge is idempotent — applying the same partial
update twice with the same wall-clock capture gives the state one application
gives (the merge replaces, it never accumulates). -/
theorem mergeState_idempotent :
    ∀ (s : RoomState) (u : RoomStateUpdate) (now : Int),
    mergeState (mergeState s u now) u now = mergeState s u now := by
  intro s u now
  obtain ⟨r, hh, v, p, t, l⟩ := u
  cases r <;> cases hh <;> cases v <;> cases p <;> cases t <;> simp [mergeState]

/-- Claim C6: a listener session issues no player command while any Tracking
entry condition is missing — player not ready, no room state received yet, or
no explicit interaction gesture — in either `Room` variant; in particular a
joined listener that has not yet received a room state issues zero commands. -/
theorem listener_idle_issues_no_commands (isHost : Bool) (rs : Option RoomState)
    (isReady userInteracted : Bool) (ps : Int) (ct : Rat) (now : Int)
    (h : rs = none ∨ isReady = false ∨ userInteracted = false) :
    listenerTick isHost rs isReady userInteracted ps ct now = []
      ∧ listenerTickV2 isHost rs isReady userInteracted ps ct now = [] := by
  unfold listenerTick listenerTickV2
  rcases h with h | h | h
  · subst h; exact ⟨rfl, rfl⟩
  · cases rs with
    | none => exact ⟨rfl, rfl⟩
    | some s => subst h; constructor <;> simp
  · cases rs with
    | none => exact ⟨rfl, rfl⟩
    | some s => subst h; constructor <;> simp

/-- Witness for `listener_idle_issues_no_commands`: a ready listener that has
interaction still pending and no cached room state issues nothing. -/
theorem listener_idle_issues_no_commands_witness :
    listenerTick false none true false 2 0 0 = []
      ∧ listenerTickV2 false none true false 2 0 0 = [] :=
  listener_idle_issues_no_commands false none true false 2 0 0 (Or.inl rfl)

/-- Claim C7: joining an absent room returns an unsuccessful result carrying
no state with isHost false and leaves the session storage untouched, and the
`Room` init effect of either variant turns that result into a user-visible
terminal error: error text set, no subscription, no component state stored. -/
theorem joinRoom_missing_room_spec (store : Store) (session : Session)
    (rid fid : String) (h : getRoomState store rid = none) :
    (joinRoom store session rid fid).1 = JoinResult.mk false none false
      ∧ (joinRoom store session rid fid).2 = session
      ∧ initRoomEffect (joinRoom store session rid fid).1 =
          InitResult.mk (some "Room not found. It may have expired or never existed.")
            false none false
      ∧ initRoomEffectV2 (joinRoom store session rid fid).1 =
          InitResultV2.mk (some "Room not found or expired.") false none false false := by
  unfold joinRoom
  rw [h]
  exact ⟨rfl, rfl, rfl, rfl⟩

/-- The empty localStorage. -/
def emptyStore : Store := fun _ => none

/-- The empty sessionStorage. -/
def emptySession : Session := fun _ => none

/-- Witness for `joinRoom_missing_room_spec` on an empty store. -/
theorem joinRoom_missing_room_spec_witness :
    (joinRoom emptyStore emptySession "nope" "fresh").1 = JoinResult.mk false none false
      ∧ (joinRoom emptyStore emptySession "nope" "fresh").2 = emptySession
      ∧ initRoomEffect (joinRoom emptyStore emptySession "nope" "fresh").1 =
          InitResult.mk (some "Room not found. It may have expired or never existed.")
            false none false
      ∧ initRoomEffectV2 (joinRoom emptyStore emptySession "nope" "fresh").1 =
          InitResultV2.mk (some "Room not found or expired.") false none false false :=
  joinRoom_missing_room_spec emptyStore emptySession "nope" "fresh" rfl

/-- Claim C8 (amended): the `src/hooks/useYouTube.tsx` effect cleanup never
propagates a failure of the player's destroy call — the try/catch swallows
any error; in the other hook variant the destroy call is unguarded, so its
failure propagates to the caller. -/
theorem cleanupHooks_never_throws :
    ∀ (playerRef : Option DestroyOutcome), cleanupHooks playerRef = Except.ok () := by
  intro playerRef
  cases playerRef with
  | none => rfl
  | some p => cases p <;> rfl

/-- Claim C8 counterexample: in the hook variant without try/catch, a failing
destroy during teardown propagates its error to the caller instead of being
swallowed. -/
theorem cleanupV0_propagates_cex :
    cleanupV0 (some (DestroyOutcome.fails "destroy failed")) =
      Except.error "destroy failed" := rfl

/-- Claim C9: `updateRoomState` on a room id with no stored state is a no-op
for every partial update: the store comes back unchanged — no room is
created, nothing is modified, no error is raised. -/
theorem updateRoomState_missing_room_noop (store : Store) (rid : String)
    (u : RoomStateUpdate) (now : Int) (h : getRoomState store rid = none) :
    updateRoomState store rid u now = store := by
  unfold updateRoomState
  rw [h]

/-- The partial update used in the C9 witness. -/
def updC9 : RoomStateUpdate :=
  RoomStateUpdate.mk none none none (some true) (some 42) none

/-- Witness for `updateRoomState_missing_room_noop`: updating a never-created
room in the empty store returns the empty store itself. -/
theorem updateRoomState_missing_room_noop_witness :
    updateRoomState emptyStore "ghost" updC9 77 = emptyStore :=
  updateRoomState_missing_room_noop emptyStore "ghost" updC9 77 rfl

/-- Claim C10: `createRoom` builds a room state whose videoId is the
argument, paused (isPlaying false) at timestamp 0 with lastUpdated the
creation wall-clock time and the two freshly generated ids as roomId and
hostId; it persists exactly the returned state under the new room id and
binds the creating session as host for it (role entry `host`, user id the
host id). -/
theorem createRoom_spec :
    ∀ (store : Store) (session : Session) (videoId roomId hostId : String) (now : Int),
    (createRoom store session videoId roomId hostId now).state =
        RoomState.mk roomId hostId videoId false 0 now
      ∧ getRoomState (createRoom store session videoId roomId hostId now).store roomId =
          some ((createRoom store session videoId roomId hostId now).state)
      ∧ (createRoom store session videoId roomId hostId now).session (SessKey.role roomId) =
          some "host"
      ∧ (createRoom store session videoId roomId hostId now).session SessKey.userId =
          some hostId := by
  intro store session videoId roomId hostId now
  refine ⟨rfl, ?_, ?_, ?_⟩
  · simp [createRoom, getRoomState, putRoom]
  · simp [createRoom, sessionSet]
  · simp [createRoom, sessionSet]
